import Mathlib

/-!
# user-server: the four user operations over the `users` table

A shallow embedding of `src/server.go`.

* `parseRole` / `roleToString` are the role codec (lines 18-37).
* `server.Create`, `server.Get`, `server.Delete`, `server.Update` are the four
  gRPC handlers (lines 49-179).  Each handler is a function of the state of the
  `users` table before the call and of what the PostgreSQL backend does during
  the call; it returns what the Go handler does (a response, an error, a process
  exit or a runtime panic) together with the table after the call.
* The handlers take `s.mu` (a `sync.RWMutex`) on entry and release it by `defer`;
  the embedding is sequential and does not model the lock.

Go values are embedded as follows: `int64` and the `int32` enum `pb.Role` are
`Int`; `string` is `String`; a Go `error` is the text of its message; a
`time.Time` is an `Int` instant.
-/

namespace pb

/-- Modelled from the spec: the generated package `pb` is not part of the source, so
the numeric values of the two constants of the enum `pb.Role` (an `int32`) are
parameters.  The spec calls the enum a closed enumeration of ADMIN and USER. -/
structure RoleEnum where
  Role_ADMIN : Int
  Role_USER : Int
deriving DecidableEq, Repr

/-- Modelled from the spec: `pb.CreateRequest` carries name, email, role, password. -/
structure CreateRequest where
  Name : String
  Email : String
  Role : Int
  Password : String
deriving DecidableEq, Repr

/-- Response of Create: the generated identifier. -/
structure CreateResponse where
  Id : Int
deriving DecidableEq, Repr

/-- Request of Get: the identifier. -/
structure GetRequest where
  Id : Int
deriving DecidableEq, Repr

/-- The record of a user as Get builds it (lines 114-123). -/
structure Is_User where
  Id : Int
  Name : String
  Email : String
  Role : Int
  Password : String
  PasswordConfirm : String
  CreatedAt : Int
  UpdateAt : Int
deriving DecidableEq, Repr

/-- Response of Get. -/
structure GetResponse where
  User : Is_User
deriving DecidableEq, Repr

/-- Request of Delete: the identifier. -/
structure DeleteRequest where
  Id : Int
deriving DecidableEq, Repr

/-- Modelled from the spec: `pb.UpdateRequest` is not part of the source.  The spec says
name and email are each "present-with-value vs. absent", and the handler reads
`req.Name.Value` and `req.Email.Value`, so each is a pointer to a wrapper message with
a `Value` field: `none` is the nil pointer (field absent), `some v` a wrapper holding
`v`.  The role is a plain enum value. -/
structure UpdateRequest where
  Id : Int
  Name : Option String
  Email : Option String
  Role : Int
deriving DecidableEq, Repr

end pb

/-- Function `parseRole` (lines 18-27): the pair (role, error) that Go returns; the
error is `none` for Go's nil.  The default case returns `pb.Role_USER` next to the
error. -/
def parseRole (E : pb.RoleEnum) (roleStr : String) : Int × Option String :=
  if roleStr = "ADMIN" then (E.Role_ADMIN, none)
  else if roleStr = "USER" then (E.Role_USER, none)
  else (E.Role_USER, some ("invalid role: " ++ roleStr))

/-- Function `roleToString` (lines 28-37): a switch on the enum value with a default. -/
def roleToString (E : pb.RoleEnum) (role : Int) : String :=
  if role = E.Role_ADMIN then "ADMIN"
  else if role = E.Role_USER then "USER"
  else "USER"

/-- A row of the table `users`, with the seven columns the SELECT of Get names. -/
structure UserRow where
  id : Int
  name : String
  email : String
  role : String
  password : String
  created_at : Int
  updated_at : Int
deriving DecidableEq, Repr

/-- The durable state: the rows of the table `users`, in storage order. -/
structure Store where
  rows : List UserRow
deriving DecidableEq, Repr

/-- What the PostgreSQL backend does during one call.  `connectErr` is the error of
`pgx.Connect` (`none`: the connection is established).  `stmtErr` is a driver error
raised while the statement runs, for a reason other than the ones the table itself
decides (connection lost, type mismatch, a constraint of the schema); `none`: no such
error.  `genId` is the identifier the storage generates for an INSERT and `now` the
server clock that fills the two timestamp columns. -/
structure Backend where
  connectErr : Option String
  stmtErr : Option String
  genId : Int
  now : Int
deriving DecidableEq, Repr

namespace pgx

/-- The errors of a statement: the sentinel `pgx.ErrNoRows`, or any other driver
error with its message. -/
inductive Err where
  | ErrNoRows
  | other (msg : String)
deriving DecidableEq, Repr

/-- Method `Error()` of a driver error, as `%v` prints it. -/
def Err.Error : Err → String
  | .ErrNoRows => "no rows in result set"
  | .other msg => msg

/-- Modelled from the spec: the schema is not part of the source; the spec says the id
is a generated primary key and that created_at and updated_at are server-set.
Statement `INSERT INTO users (name, email, role, password) VALUES ($1, $2, $3, $4)
RETURNING id`: the storage generates the id, refuses an id already in the table, and
appends the row. -/
def insertUser (b : Backend) (db : Store) (name email role password : String) :
    Except Err (Int × Store) :=
  match b.stmtErr with
  | some e => .error (.other e)
  | none =>
    if db.rows.any (fun r => decide (r.id = b.genId)) then
      .error (.other "duplicate key value violates unique constraint")
    else
      .ok (b.genId,
        ⟨db.rows ++ [⟨b.genId, name, email, role, password, b.now, b.now⟩]⟩)

/-- Statement `SELECT id, name, email, role, password, created_at, updated_at FROM users
WHERE id = $1` read by `QueryRow(...).Scan`: the first matching row, `ErrNoRows` when
no row matches. -/
def selectUser (b : Backend) (db : Store) (id : Int) : Except Err UserRow :=
  match b.stmtErr with
  | some e => .error (.other e)
  | none =>
    match db.rows.find? (fun r => decide (r.id = id)) with
    | none => .error .ErrNoRows
    | some r => .ok r

/-- Statement `DELETE FROM users WHERE id = $1` run by `Exec`: the number of rows
affected and the table without the matching rows. -/
def deleteUser (b : Backend) (db : Store) (id : Int) : Except Err (Nat × Store) :=
  match b.stmtErr with
  | some e => .error (.other e)
  | none =>
    .ok ((db.rows.filter (fun r => decide (r.id = id))).length,
      ⟨db.rows.filter (fun r => !decide (r.id = id))⟩)

/-- Statement `UPDATE users SET name = $1, email = $2, role = $3 WHERE id = $4` run by
`Exec`: the number of rows affected and the table with the three columns of the
matching rows overwritten. -/
def updateUser (b : Backend) (db : Store) (name email role : String) (id : Int) :
    Except Err (Nat × Store) :=
  match b.stmtErr with
  | some e => .error (.other e)
  | none =>
    .ok ((db.rows.filter (fun r => decide (r.id = id))).length,
      ⟨db.rows.map (fun r =>
        if r.id = id then { r with name := name, email := email, role := role } else r)⟩)

end pgx

/-- What a handler does: `ok resp` is `return resp, nil`; `error msg` is
`return nil, err` with `err.Error() = msg`; `fatal msg` is `log.Fatalf`, which logs
`msg` and exits the process without returning to the caller; `panic msg` is a Go
runtime panic, which unwinds the handler without a return value. -/
inductive Outcome (α : Type) where
  | ok (resp : α)
  | error (msg : String)
  | fatal (msg : String)
  | panic (msg : String)
deriving DecidableEq, Repr

/-- The message of the runtime panic raised by reading a field through a nil pointer. -/
def nilDereference : String :=
  "runtime error: invalid memory address or nil pointer dereference"

/-- The text of `fmt.Errorf("user with id %d not found", id)`. -/
def notFoundMsg (id : Int) : String :=
  "user with id " ++ toString id ++ " not found"

namespace server

/-- Handler `Create` (lines 49-77). -/
def Create (E : pb.RoleEnum) (b : Backend) (db : Store) (req : pb.CreateRequest) :
    Outcome pb.CreateResponse × Store :=
  let role := roleToString E req.Role
  match b.connectErr with
  | some err => (.fatal ("failed to connect to database: " ++ err), db)
  | none =>
    match pgx.insertUser b db req.Name req.Email role req.Password with
    | .error err => (.error ("failed to insert user: " ++ err.Error), db)
    | .ok (userID, db') => (.ok ⟨userID⟩, db')

/-- Handler `Get` (lines 79-125).  The SELECT leaves the table as it is, so only the
outcome is returned. -/
def Get (E : pb.RoleEnum) (b : Backend) (db : Store) (req : pb.GetRequest) :
    Outcome pb.GetResponse :=
  match b.connectErr with
  | some err => .error ("failed to connect to database: " ++ err)
  | none =>
    match pgx.selectUser b db req.Id with
    | .error err =>
      if err = pgx.Err.ErrNoRows then .error (notFoundMsg req.Id)
      else .error ("failed to get user: " ++ err.Error)
    | .ok row =>
      match parseRole E row.role with
      | (_, some err) => .error err
      | (rolestr, none) =>
        .ok ⟨⟨row.id, row.name, row.email, rolestr, row.password, row.password,
          row.created_at, row.updated_at⟩⟩

/-- Handler `Delete` (lines 127-150). -/
def Delete (b : Backend) (db : Store) (req : pb.DeleteRequest) : Outcome Unit × Store :=
  match b.connectErr with
  | some err => (.error ("failed to connect to database: " ++ err), db)
  | none =>
    match pgx.deleteUser b db req.Id with
    | .error err => (.error ("failed to delete user: " ++ err.Error), db)
    | .ok (affected, db') =>
      if affected = 0 then (.error (notFoundMsg req.Id), db')
      else (.ok (), db')

/-- Handler `Update` (lines 152-179).  The arguments of `Exec` are evaluated left to
right before the statement is sent: `req.Name.Value` and `req.Email.Value` read a
field through the pointer, which panics on a nil pointer. -/
def Update (E : pb.RoleEnum) (b : Backend) (db : Store) (req : pb.UpdateRequest) :
    Outcome Unit × Store :=
  let role := roleToString E req.Role
  match b.connectErr with
  | some err => (.error ("failed to connect to database: " ++ err), db)
  | none =>
    match req.Name with
    | none => (.panic nilDereference, db)
    | some name =>
      match req.Email with
      | none => (.panic nilDereference, db)
      | some email =>
        match pgx.updateUser b db name email role req.Id with
        | .error err => (.error ("failed to update user: " ++ err.Error), db)
        | .ok (affected, db') =>
          if affected = 0 then (.error (notFoundMsg req.Id), db')
          else (.ok (), db')

end server

/-! ## The role codec -/

/-- Encoding one of the two declared roles and decoding the text gives the role back;
the two constants of a Go switch are distinct. -/
theorem parseRole_roleToString (E : pb.RoleEnum) (hE : E.Role_ADMIN ≠ E.Role_USER)
    (r : Int) (hr : r = E.Role_ADMIN ∨ r = E.Role_USER) :
    parseRole E (roleToString E r) = (r, none) := by
  rcases hr with rfl | rfl
  · simp [roleToString, parseRole]
  · have h : ¬ E.Role_USER = E.Role_ADMIN := fun h => hE h.symm
    simp [roleToString, parseRole, h]

/-- C4: the role codec round-trips on the two known tokens.  For every text t among
"ADMIN" and "USER", parseRole succeeds with a role whose encoding is t; for every role
r among ADMIN and USER, parseRole of the encoding of r succeeds and returns r. -/
theorem role_codec_roundtrip (E : pb.RoleEnum) (hE : E.Role_ADMIN ≠ E.Role_USER) :
    (∀ t : String, t = "ADMIN" ∨ t = "USER" →
      ∃ r, parseRole E t = (r, none) ∧ roleToString E r = t) ∧
    (∀ r : Int, r = E.Role_ADMIN ∨ r = E.Role_USER →
      parseRole E (roleToString E r) = (r, none)) := by
  refine ⟨?_, fun r hr => parseRole_roleToString E hE r hr⟩
  intro t ht
  rcases ht with rfl | rfl
  · exact ⟨E.Role_ADMIN, by simp [parseRole], by simp [roleToString]⟩
  · have h : ¬ E.Role_USER = E.Role_ADMIN := fun h => hE h.symm
    exact ⟨E.Role_USER, by simp [parseRole], by simp [roleToString, h]⟩

/-- Witness of C4 with ADMIN = 1 and USER = 0. -/
theorem role_codec_roundtrip_witness :
    ((1 : Int) ≠ 0) ∧
    ((∀ t : String, t = "ADMIN" ∨ t = "USER" →
      ∃ r, parseRole ⟨1, 0⟩ t = (r, none) ∧ roleToString ⟨1, 0⟩ r = t) ∧
    (∀ r : Int, r = 1 ∨ r = 0 →
      parseRole ⟨1, 0⟩ (roleToString ⟨1, 0⟩ r) = (r, none))) :=
  ⟨by decide, role_codec_roundtrip ⟨1, 0⟩ (by decide)⟩

/-- C5: parseRole is strict.  For every text t the error of parseRole is absent when t
is "ADMIN" or "USER" and is "invalid role: " followed by t otherwise, so it returns an
error exactly when t is neither token; the comparison is exact, so "admin", the empty
text and " USER" are rejected. -/
theorem parseRole_strict (E : pb.RoleEnum) (t : String) :
    (parseRole E t).2 =
      (if t = "ADMIN" ∨ t = "USER" then none else some ("invalid role: " ++ t)) ∧
    ((parseRole E t).2 ≠ none ↔ (t ≠ "ADMIN" ∧ t ≠ "USER")) ∧
    (parseRole E "admin").2 = some "invalid role: admin" ∧
    (parseRole E "").2 = some "invalid role: " ∧
    (parseRole E " USER").2 = some "invalid role:  USER" := by
  refine ⟨?_, ?_, ?_, ?_, ?_⟩
  · unfold parseRole
    by_cases h1 : t = "ADMIN"
    · simp [h1]
    · by_cases h2 : t = "USER"
      · simp [h2]
      · simp [h1, h2]
  · unfold parseRole
    by_cases h1 : t = "ADMIN"
    · simp [h1]
    · by_cases h2 : t = "USER"
      · simp [h2]
      · simp [h1, h2]
  · simp [parseRole]
  · simp [parseRole]
  · simp [parseRole]

/-- C6: roleToString is total and permissive.  For every enum integer v it returns
"ADMIN" when v is ADMIN and "USER" for every other v; the result is one of the two
tokens, and parseRole accepts it. -/
theorem roleToString_total (E : pb.RoleEnum) (v : Int) :
    roleToString E v = (if v = E.Role_ADMIN then "ADMIN" else "USER") ∧
    (roleToString E v = "ADMIN" ∨ roleToString E v = "USER") ∧
    (parseRole E (roleToString E v)).2 = none := by
  have h : roleToString E v = (if v = E.Role_ADMIN then "ADMIN" else "USER") := by
    unfold roleToString
    split_ifs <;> rfl
  rw [h]
  by_cases h1 : v = E.Role_ADMIN
  · simp [h1, parseRole]
  · simp [h1, parseRole]

/-! ## Helper lemmas on the statements and the error texts -/

/-- The not-found text starts with the letter u, so it differs from every text that
starts with the letter f, such as "failed to get user: ...". -/
theorem notFoundMsg_ne_failed (id : Int) (pre e : String) (h : pre.data.head? = some 'f') :
    notFoundMsg id ≠ pre ++ e := by
  intro hEq
  have h1 := congrArg (fun s => s.data.head?) hEq
  simp only [notFoundMsg, String.append_assoc, String.data_append] at h1
  have h2 : ("user with id ".data ++ ((toString id).data ++ " not found".data)).head?
      = some 'u' := rfl
  rw [h2] at h1
  cases hp : pre.data with
  | nil => rw [hp] at h; simp at h
  | cons c cs =>
    rw [hp] at h h1
    simp at h h1
    rw [h] at h1
    exact absurd h1 (by decide)

/-- When no row has the identifier, the SELECT finds nothing. -/
theorem find?_none_of_missing (rows : List UserRow) (I : Int)
    (h : ∀ r ∈ rows, r.id ≠ I) :
    rows.find? (fun r => decide (r.id = I)) = none := by
  rw [List.find?_eq_none]
  intro r hr
  simpa using h r hr

/-- When exactly one row has the identifier, the SELECT finds it. -/
theorem find?_of_unique (rows : List UserRow) (I : Int) (r : UserRow)
    (hmem : r ∈ rows) (hid : r.id = I) (huniq : ∀ x ∈ rows, x.id = I → x = r) :
    rows.find? (fun x => decide (x.id = I)) = some r := by
  cases hf : rows.find? (fun x => decide (x.id = I)) with
  | none =>
    rw [List.find?_eq_none] at hf
    exact absurd (by simpa using hid) (hf r hmem)
  | some x =>
    have hx : x.id = I := by simpa using List.find?_some hf
    rw [huniq x (List.mem_of_find?_eq_some hf) hx]

/-- When no row has the identifier, the WHERE clause selects no row. -/
theorem filter_eq_nil_of_missing (rows : List UserRow) (I : Int)
    (h : ∀ r ∈ rows, r.id ≠ I) :
    rows.filter (fun r => decide (r.id = I)) = [] := by
  rw [List.filter_eq_nil_iff]
  intro r hr
  simpa using h r hr

/-- When no row has the identifier, removing the matching rows keeps every row. -/
theorem filter_not_eq_self_of_missing (rows : List UserRow) (I : Int)
    (h : ∀ r ∈ rows, r.id ≠ I) :
    rows.filter (fun r => !decide (r.id = I)) = rows := by
  rw [List.filter_eq_self]
  intro r hr
  simpa using h r hr

/-- When no row has the identifier, overwriting the matching rows keeps every row. -/
theorem map_update_eq_self_of_missing (rows : List UserRow) (I : Int)
    (name email role : String) (h : ∀ r ∈ rows, r.id ≠ I) :
    rows.map (fun r =>
      if r.id = I then { r with name := name, email := email, role := role } else r)
      = rows := by
  conv_rhs => rw [← List.map_id rows]
  apply List.map_congr_left
  intro r hr
  simp [h r hr]

/-- After the DELETE no row has the identifier. -/
theorem missing_after_filter (rows : List UserRow) (I : Int) :
    ∀ r ∈ rows.filter (fun r => !decide (r.id = I)), r.id ≠ I := by
  intro r hr
  have := (List.mem_filter.mp hr).2
  simpa using this

/-- On a store with no row for the identifier, Delete returns the not-found error and
leaves the store as it is. -/
theorem Delete_missing_row (g n : Int) (db : Store) (I : Int)
    (h : ∀ r ∈ db.rows, r.id ≠ I) :
    server.Delete ⟨none, none, g, n⟩ db ⟨I⟩ = (.error (notFoundMsg I), db) := by
  simp [server.Delete, pgx.deleteUser, filter_eq_nil_of_missing db.rows I h,
    filter_not_eq_self_of_missing db.rows I h]

/-- On a store with no row for the identifier, Update with both name and email present
returns the not-found error and leaves the store as it is. -/
theorem Update_missing_row_present (E : pb.RoleEnum) (g n : Int) (db : Store) (I : Int)
    (name email : String) (role : Int) (h : ∀ r ∈ db.rows, r.id ≠ I) :
    server.Update E ⟨none, none, g, n⟩ db ⟨I, some name, some email, role⟩
      = (.error (notFoundMsg I), db) := by
  simp [server.Update, pgx.updateUser, filter_eq_nil_of_missing db.rows I h,
    map_update_eq_self_of_missing db.rows I _ _ _ h]

/-- When the connection cannot be established, Get, Delete and Update return an error
to the caller and leave the store as it is. -/
theorem connect_failure_is_error (E : pb.RoleEnum) (e : String) (s : Option String)
    (g n : Int) (db : Store) :
    (∀ req, server.Get E ⟨some e, s, g, n⟩ db req
      = .error ("failed to connect to database: " ++ e)) ∧
    (∀ req, server.Delete ⟨some e, s, g, n⟩ db req
      = (.error ("failed to connect to database: " ++ e), db)) ∧
    (∀ req, server.Update E ⟨some e, s, g, n⟩ db req
      = (.error ("failed to connect to database: " ++ e), db)) := by
  refine ⟨fun _ => rfl, fun _ => rfl, fun _ => rfl⟩

/-! ## The four operations -/

/-- The store that holds the single row of the example scenario. -/
def anaStore : Store :=
  ⟨[⟨1, "Ana", "ana@x.com", "USER", "p1", 100, 100⟩]⟩

/-- C3: when Create(name, email, role, password) with role ADMIN or USER succeeds and
returns the identifier i, no row of the store before the call had i, and Get(i) on the
resulting store (connection established, no driver error) succeeds and returns the
record with id i and the supplied name, email, role and password. -/
theorem Create_then_Get (E : pb.RoleEnum) (hE : E.Role_ADMIN ≠ E.Role_USER)
    (bC : Backend) (g n : Int) (db db' : Store) (req : pb.CreateRequest) (i : Int)
    (hr : req.Role = E.Role_ADMIN ∨ req.Role = E.Role_USER)
    (hC : server.Create E bC db req = (.ok ⟨i⟩, db')) :
    (∀ r ∈ db.rows, r.id ≠ i) ∧
    ∃ resp, server.Get E ⟨none, none, g, n⟩ db' ⟨i⟩ = .ok resp ∧
      resp.User.Id = i ∧ resp.User.Name = req.Name ∧ resp.User.Email = req.Email ∧
      resp.User.Role = req.Role ∧ resp.User.Password = req.Password := by
  unfold server.Create pgx.insertUser at hC
  cases hc : bC.connectErr with
  | some e => simp [hc] at hC
  | none =>
    cases hs : bC.stmtErr with
    | some e => simp [hc, hs] at hC
    | none =>
      by_cases hany : db.rows.any (fun r => decide (r.id = bC.genId)) = true
      · simp [hc, hs, hany] at hC
      · simp only [hc, hs, hany] at hC
        simp at hC
        obtain ⟨hi, hdb⟩ := hC
        subst hi
        subst hdb
        have hfresh : ∀ r ∈ db.rows, r.id ≠ bC.genId := by
          intro r hr' hEq
          exact hany (List.any_eq_true.mpr ⟨r, hr', by simp [hEq]⟩)
        refine ⟨hfresh, ⟨⟨bC.genId, req.Name, req.Email, req.Role, req.Password,
          req.Password, bC.now, bC.now⟩⟩, ?_, rfl, rfl, rfl, rfl, rfl⟩
        simp [server.Get, pgx.selectUser, find?_none_of_missing db.rows bC.genId hfresh,
          parseRole_roleToString E hE req.Role hr]

/-- Witness of C3: the example scenario, Create("Ana", "ana@x.com", USER, "p1") on the
empty store returning 1, then Get(1). -/
theorem Create_then_Get_witness :
    server.Create ⟨1, 0⟩ ⟨none, none, 1, 100⟩ ⟨[]⟩ ⟨"Ana", "ana@x.com", 0, "p1"⟩
      = (.ok ⟨1⟩, anaStore) ∧
    ∃ resp, server.Get ⟨1, 0⟩ ⟨none, none, 2, 200⟩ anaStore ⟨1⟩ = .ok resp ∧
      resp.User.Id = 1 ∧ resp.User.Name = "Ana" ∧ resp.User.Email = "ana@x.com" ∧
      resp.User.Role = 0 ∧ resp.User.Password = "p1" :=
  ⟨by decide,
    (Create_then_Get ⟨1, 0⟩ (by decide) ⟨none, none, 1, 100⟩ 2 200 ⟨[]⟩ anaStore
      ⟨"Ana", "ana@x.com", 0, "p1"⟩ 1 (Or.inr rfl) (by decide)).2⟩

/-- C7: on a store with no row for the identifier I, because no row ever had it or
because a successful Delete(I) produced the store, Get(I) returns no record and fails
with the error "user with id I not found"; any other driver error makes Get fail with
"failed to get user: ..." instead, which is a different error. -/
theorem Get_missing_row_not_found (E : pb.RoleEnum) (g n : Int) (db : Store) (I : Int)
    (h : (∀ r ∈ db.rows, r.id ≠ I) ∨
      (∃ bD db0, server.Delete bD db0 ⟨I⟩ = (.ok (), db))) :
    server.Get E ⟨none, none, g, n⟩ db ⟨I⟩ = .error (notFoundMsg I) ∧
    (∀ e, server.Get E ⟨none, some e, g, n⟩ db ⟨I⟩ = .error ("failed to get user: " ++ e) ∧
      notFoundMsg I ≠ "failed to get user: " ++ e) := by
  have hmiss : ∀ r ∈ db.rows, r.id ≠ I := by
    rcases h with h | ⟨bD, db0, hD⟩
    · exact h
    · unfold server.Delete pgx.deleteUser at hD
      cases hc : bD.connectErr with
      | some e => simp [hc] at hD
      | none =>
        cases hs : bD.stmtErr with
        | some e => simp [hc, hs] at hD
        | none =>
          simp only [hc, hs] at hD
          split_ifs at hD with h0
          · simp at hD
          · have hdb : db = ⟨db0.rows.filter (fun r => !decide (r.id = I))⟩ :=
              (congrArg Prod.snd hD).symm
            rw [hdb]
            exact missing_after_filter db0.rows I
  refine ⟨?_, fun e => ⟨?_, notFoundMsg_ne_failed I _ e rfl⟩⟩
  · simp [server.Get, pgx.selectUser, find?_none_of_missing db.rows I hmiss]
  · simp [server.Get, pgx.selectUser, pgx.Err.Error]

/-- Witness of C7: Delete(1) on the store of the example scenario succeeds and leaves
the empty store, on which Get(1) fails with "user with id 1 not found". -/
theorem Get_missing_row_not_found_witness :
    server.Delete ⟨none, none, 2, 200⟩ anaStore ⟨1⟩ = (.ok (), ⟨[]⟩) ∧
    server.Get ⟨1, 0⟩ ⟨none, none, 3, 300⟩ ⟨[]⟩ ⟨1⟩ = .error "user with id 1 not found" :=
  ⟨by decide,
    (Get_missing_row_not_found ⟨1, 0⟩ 3 300 ⟨[]⟩ 1
      (Or.inr ⟨⟨none, none, 2, 200⟩, anaStore, by decide⟩)).1⟩

/-- C9: when the row of the store with identifier I holds a role text other than
"ADMIN" and "USER", Get(I) fails with the error parseRole produces for that text,
"invalid role: " followed by the text, and returns no record. -/
theorem Get_invalid_stored_role (E : pb.RoleEnum) (g n : Int) (db : Store) (I : Int)
    (r : UserRow) (hmem : r ∈ db.rows) (hid : r.id = I)
    (huniq : ∀ x ∈ db.rows, x.id = I → x = r)
    (h1 : r.role ≠ "ADMIN") (h2 : r.role ≠ "USER") :
    server.Get E ⟨none, none, g, n⟩ db ⟨I⟩ = .error ("invalid role: " ++ r.role) ∧
    (parseRole E r.role).2 = some ("invalid role: " ++ r.role) ∧
    (∀ resp, server.Get E ⟨none, none, g, n⟩ db ⟨I⟩ ≠ .ok resp) := by
  have hp : parseRole E r.role = (E.Role_USER, some ("invalid role: " ++ r.role)) := by
    simp [parseRole, h1, h2]
  have hG : server.Get E ⟨none, none, g, n⟩ db ⟨I⟩ = .error ("invalid role: " ++ r.role) := by
    simp [server.Get, pgx.selectUser, find?_of_unique db.rows I r hmem hid huniq, hp]
  refine ⟨hG, by rw [hp], ?_⟩
  intro resp hresp
  rw [hG] at hresp
  cases hresp

/-- Witness of C9: a row whose stored role is "admin" in lower case. -/
theorem Get_invalid_stored_role_witness :
    server.Get ⟨1, 0⟩ ⟨none, none, 2, 200⟩
      ⟨[⟨5, "Bo", "bo@x.com", "admin", "p2", 100, 100⟩]⟩ ⟨5⟩
      = .error "invalid role: admin" :=
  (Get_invalid_stored_role ⟨1, 0⟩ 2 200 ⟨[⟨5, "Bo", "bo@x.com", "admin", "p2", 100, 100⟩]⟩ 5
    ⟨5, "Bo", "bo@x.com", "admin", "p2", 100, 100⟩ (by simp) rfl
    (by intro x hx _; simpa using hx) (by decide) (by decide)).1

/-- Update with name and email both present on the store of the example scenario
overwrites both columns, also with an empty value: the statement assigns `$1` and `$2`
as they are. -/
theorem Update_present_overwrites :
    server.Update ⟨1, 0⟩ ⟨none, none, 2, 200⟩ anaStore ⟨1, some "", some "ana2@x.com", 1⟩
      = (.ok (), ⟨[⟨1, "", "ana2@x.com", "ADMIN", "p1", 100, 100⟩]⟩) := by
  decide

/-- C1, evaluated on the code: Update with the name absent, once the connection is
established, reads `req.Name.Value` through the nil pointer and panics; it returns
neither success nor an error, and the store is as before.  In the example scenario,
Update(1, name absent, email "ana2@x.com", role ADMIN) on the store holding Ana panics,
and a following Get(1) still returns the email "ana@x.com". -/
theorem Update_absent_name_panics (E : pb.RoleEnum) (s : Option String) (g n : Int)
    (db : Store) (I : Int) (email : Option String) (role : Int) :
    server.Update E ⟨none, s, g, n⟩ db ⟨I, none, email, role⟩
      = (.panic nilDereference, db) ∧
    server.Update ⟨1, 0⟩ ⟨none, none, 2, 200⟩ anaStore ⟨1, none, some "ana2@x.com", 1⟩
      = (.panic "runtime error: invalid memory address or nil pointer dereference",
          anaStore) ∧
    server.Get ⟨1, 0⟩ ⟨none, none, 3, 300⟩ anaStore ⟨1⟩
      = .ok ⟨⟨1, "Ana", "ana@x.com", 0, "p1", "p1", 100, 100⟩⟩ := by
  refine ⟨rfl, by decide, by decide⟩

/-- C2, evaluated on the code: when the connection cannot be established, Create calls
`log.Fatalf`, which ends the process; it does not return an error to its caller. -/
theorem Create_connect_failure_exits (E : pb.RoleEnum) (e : String) (s : Option String)
    (g n : Int) (db : Store) (req : pb.CreateRequest) :
    server.Create E ⟨some e, s, g, n⟩ db req
      = (.fatal ("failed to connect to database: " ++ e), db) ∧
    (∀ msg, (server.Create E ⟨some e, s, g, n⟩ db req).1 ≠ .error msg) := by
  have h : server.Create E ⟨some e, s, g, n⟩ db req
      = (.fatal ("failed to connect to database: " ++ e), db) := rfl
  refine ⟨h, ?_⟩
  intro msg hmsg
  rw [h] at hmsg
  cases hmsg

/-- C8: on a store with no row for the identifier I, Delete(I) fails with the error
"user with id I not found" and leaves every row as it is, and Update(I, name, email,
role) with a name and an email given fails with the same error (zero rows affected) and
leaves every row as it is; neither returns the empty success marker. -/
theorem missing_row_not_found (E : pb.RoleEnum) (g n : Int) (db : Store) (I : Int)
    (name email : String) (role : Int) (h : ∀ r ∈ db.rows, r.id ≠ I) :
    server.Delete ⟨none, none, g, n⟩ db ⟨I⟩ = (.error (notFoundMsg I), db) ∧
    server.Update E ⟨none, none, g, n⟩ db ⟨I, some name, some email, role⟩
      = (.error (notFoundMsg I), db) ∧
    (server.Delete ⟨none, none, g, n⟩ db ⟨I⟩).1 ≠ .ok () ∧
    (server.Update E ⟨none, none, g, n⟩ db ⟨I, some name, some email, role⟩).1
      ≠ .ok () := by
  have hD := Delete_missing_row g n db I h
  have hU := Update_missing_row_present E g n db I name email role h
  refine ⟨hD, hU, ?_, ?_⟩
  · rw [hD]
    intro hok
    cases hok
  · rw [hU]
    intro hok
    cases hok

/-- Witness of C8: the store of the example scenario has no row 7; Delete(7) and
Update(7, "Bo", "bo@x.com", ADMIN) fail with "user with id 7 not found" and the row of
Ana is as before. -/
theorem missing_row_not_found_witness :
    (∀ r ∈ anaStore.rows, r.id ≠ 7) ∧
    server.Delete ⟨none, none, 2, 200⟩ anaStore ⟨7⟩
      = (.error "user with id 7 not found", anaStore) ∧
    server.Update ⟨1, 0⟩ ⟨none, none, 2, 200⟩ anaStore ⟨7, some "Bo", some "bo@x.com", 1⟩
      = (.error "user with id 7 not found", anaStore) :=
  have h7 : ∀ r ∈ anaStore.rows, r.id ≠ 7 := by decide
  have hw := missing_row_not_found ⟨1, 0⟩ 2 200 anaStore 7 "Bo" "bo@x.com" 1 h7
  ⟨h7, hw.1, hw.2.1⟩
